import Mathlib

/-!
Verification of the Air-Cargo Booking and Tracking backend.

This file shallowly embeds the booking lifecycle
(`src/backend/controllers/bookingController.js`), the booking schema hooks
(`src/backend/models/Booking.js`) and the route-discovery service
(`src/unnamed/part_001`, i.e. the route service) in Lean.  JavaScript strings
are modelled as lists of characters (`JStr`), timestamps as natural numbers of
milliseconds since the epoch (UTC, zero timezone offset), and the MongoDB
store as a list of booking documents.  Atomic `findOneAndUpdate` writes are
modelled as single steps of a small-step interleaving semantics.
-/

/-- JavaScript strings are modelled as lists of characters. -/
abbrev JStr := List Char

/-- Model of `String.prototype.toUpperCase` (ASCII relevant range). -/
def jsToUpper (s : JStr) : JStr := s.map Char.toUpper

/-- Model of `String.prototype.trim`: drop whitespace from both ends. -/
def jsTrim (s : JStr) : JStr :=
  ((s.dropWhile Char.isWhitespace).reverse.dropWhile Char.isWhitespace).reverse

/-- Composition `toUpperCase().trim()` as applied by the controllers. -/
def jsUpperTrim (s : JStr) : JStr := jsTrim (jsToUpper s)

/-- Model of `String.prototype.split(sep)` for a single-character separator. -/
def splitOnChar (c : Char) : List Char → List JStr
  | [] => [[]]
  | x :: xs =>
    let rest := splitOnChar c xs
    if x = c then [] :: rest
    else
      match rest with
      | [] => [[x]]
      | h :: t => (x :: h) :: t

/-- Model of JavaScript `parseInt` on the strings the backend feeds it:
the longest leading run of decimal digits, `none` standing for `NaN`. -/
def jsParseInt (s : JStr) : Option Nat :=
  let ds := s.takeWhile Char.isDigit
  if ds.isEmpty then none
  else some (ds.foldl (fun a c => a * 10 + (c.toNat - 48)) 0)

/-- The decimal digit characters. -/
def decimalDigits : List Char := ['0', '1', '2', '3', '4', '5', '6', '7', '8', '9']

/-- The character for one decimal digit (digits are < 10 at every call site). -/
def decimalDigit (d : Nat) : Char := decimalDigits.getD d '0'

/-- Fuel-driven decimal rendering of a natural number (least significant digit
last), structural so that the kernel can evaluate it. -/
def natToDecimalAux : Nat → Nat → List Char
  | 0, _ => []
  | fuel + 1, n =>
    if n < 10 then [decimalDigit n]
    else natToDecimalAux fuel (n / 10) ++ [decimalDigit (n % 10)]

/-- Model of JavaScript `Number.prototype.toString()` for naturals. -/
def natToDecimal (n : Nat) : JStr := natToDecimalAux (n + 1) n

/-- Model of `String.prototype.padStart(w, '0')`. -/
def padZeros (w : Nat) (s : JStr) : JStr := List.replicate (w - s.length) '0' ++ s

/-- The `YYYYMMDD` date string taken from `toISOString()` (UTC calendar
date) with the hyphens removed, as in the `ref_id` pre-save hook. -/
def mkDateStr (y m d : Nat) : JStr :=
  padZeros 4 (natToDecimal y) ++ padZeros 2 (natToDecimal m) ++ padZeros 2 (natToDecimal d)

/-- Hexadecimal digit characters (both cases), for ObjectId validation. -/
def isHexChar (c : Char) : Bool :=
  ('0' ≤ c ∧ c ≤ '9') ∨ ('a' ≤ c ∧ c ≤ 'f') ∨ ('A' ≤ c ∧ c ≤ 'F')

/-- Model of `mongoose.Types.ObjectId.isValid` on strings: a 12-character
string (12-byte representation) or a 24-character hexadecimal string. -/
def isValidObjectId (s : JStr) : Bool :=
  s.length = 12 ∨ (s.length = 24 ∧ s.all isHexChar)

/-- Lexicographic maximum of a string and an optional running maximum. -/
def maxRefStep (r : JStr) : Option JStr → JStr
  | none => r
  | some m => if r < m then m else r

/-- Lexicographically greatest element of a list of strings; models
`findOne(...).sort(\x7b ref_id: -1 \x7d)` over the matching documents. -/
def maxRef? : List JStr → Option JStr
  | [] => none
  | r :: rs => some (maxRefStep r (maxRef? rs))

/-- The booking status enumeration of `Booking.js`. -/
inductive Status where
  | BOOKED
  | DEPARTED
  | ARRIVED
  | DELIVERED
  | CANCELLED
deriving DecidableEq, Repr

/-- One timeline entry: `\x7b event, timestamp, flightId \x7d`. -/
structure TimelineEvent where
  event : Status
  timestamp : Nat
  flightId : Option Nat
deriving DecidableEq, Repr

/-- A booking document as stored by the Booking store. -/
structure Booking where
  oid : JStr
  ref_id : JStr
  origin : JStr
  destination : JStr
  pieces : Int
  weight_kg : Int
  status : Status
  flightIds : List Nat
  timeline : List TimelineEvent
deriving DecidableEq, Repr

/-- A flight document of the flight catalog (`Flight.js`).  Departure and
arrival are milliseconds since the epoch, UTC. -/
structure Flight where
  id : Nat
  flightNumber : JStr
  airlineName : JStr
  origin : JStr
  destination : JStr
  departureDateTime : Nat
  arrivalDateTime : Nat
deriving DecidableEq, Repr

/-- Insertion keyed on an integer, placing the new element after existing
equal keys; building block of the stable sort used to model `.sort(...)`. -/
def insertByKey (k : α → Int) (x : α) : List α → List α
  | [] => [x]
  | y :: ys => if k x ≤ k y then x :: y :: ys else y :: insertByKey k x ys

/-- Stable sort by an integer key; models MongoDB's ascending sort and
JavaScript's stable `Array.prototype.sort` with comparator `a - b`. -/
def sortByKey (k : α → Int) : List α → List α
  | [] => []
  | x :: xs => insertByKey k x (sortByKey k xs)

/-- The `BOOK-` prefix chunk of a `ref_id` for a given date string. -/
def refIdPre (dateStr : JStr) : JStr := "BOOK-".data ++ dateStr ++ "-".data

/-- Numeric suffix parse of an existing `ref_id`, as the hook performs it:
`parseInt(ref.split('-')[2])`, `none` when the part is missing or `NaN`. -/
def parseRefSuffix (r : JStr) : Option Nat :=
  match (splitOnChar '-' r).get? 2 with
  | none => none
  | some part => jsParseInt part

/-- The sequence number chosen by the `ref_id` pre-save hook: one plus the
parsed numeric suffix of the lexicographically greatest existing `ref_id`
with the day's prefix, or 1 when there is none (or its suffix is `NaN`). -/
def genSequence (existing : List JStr) (dateStr : JStr) : Nat :=
  match maxRef? (existing.filter (fun r => (refIdPre dateStr).isPrefixOf r)) with
  | none => 1
  | some last =>
    match parseRefSuffix last with
    | some n => n + 1
    | none => 1

/-- The `ref_id` pre-save hook of `Booking.js`: build the day prefix from the
UTC date string, take the lexicographically greatest existing `ref_id` with
that prefix, increment its parsed numeric suffix (1 when absent or `NaN`),
and zero-pad the sequence to 6 digits. -/
def generateRefId (existing : List JStr) (dateStr : JStr) : JStr :=
  refIdPre dateStr ++ padZeros 6 (natToDecimal (genSequence existing dateStr))

/-- Error taxonomy of the booking controllers (§7 of the spec). -/
inductive LErr where
  | invalidFlightReference
  | notFound
  | invalidTransition
  | concurrencyConflict
deriving DecidableEq, Repr

/-- Operation `createBooking` of `bookingController.js` combined with the pre-save
hooks of `Booking.js`: validate that the `$in` query over the catalog matches
as many flights as there are entries in `flightIds`, normalize the airport
codes, generate the `ref_id` from the existing ones, and build the new
document with status `BOOKED` and a single-entry timeline. -/
def createBooking (catalog : List Flight) (existingRefs : List JStr)
    (oid origin destination : JStr) (pieces weight_kg : Int)
    (flightIds : List Nat) (y m d t : Nat) : Except LErr Booking :=
  if flightIds.length > 0 ∧
      (catalog.filter (fun f => decide (f.id ∈ flightIds))).length ≠ flightIds.length then
    .error .invalidFlightReference
  else
    .ok
      { oid := oid
        ref_id := generateRefId existingRefs (mkDateStr y m d)
        origin := jsUpperTrim origin
        destination := jsUpperTrim destination
        pieces := pieces
        weight_kg := weight_kg
        status := .BOOKED
        flightIds := flightIds
        timeline := [{ event := .BOOKED, timestamp := t, flightId := none }] }

/-- The lifecycle operations other than creation, tagged with the optional
flight reference supplied to `depart`/`arrive`. -/
inductive Op where
  | depart (flightId : Option Nat)
  | arrive (flightId : Option Nat)
  | cancel
deriving DecidableEq, Repr

/-- Sequential semantics of one lifecycle call on one booking, mirroring the
controller: the locally-read status check, then the conditional
`findOneAndUpdate` keyed on the same status set (which, with no interleaved
writer, sees the same status).  `t` is the `new Date()` timestamp. -/
def applyOp (op : Op) (t : Nat) (b : Booking) : Except LErr Booking :=
  match op with
  | .depart fid =>
    if b.status ∈ [Status.BOOKED] then
      if b.status ∈ [Status.BOOKED] then
        .ok { b with status := .DEPARTED,
                     timeline := b.timeline ++ [{ event := .DEPARTED, timestamp := t, flightId := fid }] }
      else .error .concurrencyConflict
    else .error .invalidTransition
  | .arrive fid =>
    if b.status ∈ [Status.DEPARTED, Status.BOOKED] then
      if b.status ∈ [Status.DEPARTED, Status.BOOKED] then
        .ok { b with status := .ARRIVED,
                     timeline := b.timeline ++ [{ event := .ARRIVED, timestamp := t, flightId := fid }] }
      else .error .concurrencyConflict
    else .error .invalidTransition
  | .cancel =>
    if b.status = Status.ARRIVED then .error .invalidTransition
    else if b.status ∈ [Status.BOOKED, Status.DEPARTED] then
      if b.status ∈ [Status.BOOKED, Status.DEPARTED] then
        .ok { b with status := .CANCELLED,
                     timeline := b.timeline ++ [{ event := .CANCELLED, timestamp := t, flightId := none }] }
      else .error .concurrencyConflict
    else .error .invalidTransition

/-- Effect of one lifecycle call on the stored booking: a failed call throws
before or instead of writing, leaving the document unchanged. -/
def stepB (op : Op) (t : Nat) (b : Booking) : Booking :=
  match applyOp op t b with
  | .ok b' => b'
  | .error _ => b

/-- A trace of lifecycle calls, each with its `new Date()` timestamp. -/
def runOps (b : Booking) (ops : List (Op × Nat)) : Booking :=
  ops.foldl (fun b p => stepB p.1 p.2 b) b

/-- Timestamps along a trace are chronological: each call's clock reading is
at least the previous one (wall-clock time does not go backwards). -/
def chron : Nat → List (Op × Nat) → Prop
  | _, [] => True
  | t, p :: rest => t ≤ p.2 ∧ chron p.2 rest

/-- Helper `findBookingByIdentifier` of `bookingController.js`: when the identifier
is a valid ObjectId, try the `_id` lookup first; otherwise (or when it
misses) look up by `ref_id` after uppercasing and trimming the identifier. -/
def findBookingByIdentifier (store : List Booking) (identifier : JStr) : Option Booking :=
  let byRef := store.find? (fun b => b.ref_id = jsUpperTrim identifier)
  if isValidObjectId identifier then
    match store.find? (fun b => b.oid = identifier) with
    | some b => some b
    | none => byRef
  else byRef

/-- Operation `getBookingHistory`: resolve the booking, then return it with the
timeline sorted chronologically (oldest first). -/
def getBookingHistory (store : List Booking) (identifier : JStr) : Except LErr Booking :=
  match findBookingByIdentifier store identifier with
  | none => .error .notFound
  | some b => .ok { b with timeline := sortByKey (fun e => (e.timestamp : Int)) b.timeline }

/-- Milliseconds per calendar day (UTC model, no DST). -/
def msPerDay : Nat := 86400000

/-- The instant 23:59:59.999 of the calendar day after the given instant:
`setDate(getDate() + 1)` followed by `setHours(23, 59, 59, 999)`. -/
def endOfNextDay (t : Nat) : Nat := (t / msPerDay + 2) * msPerDay - 1

/-- Helper `calculateDuration` of the route service: `Math.round` of the
millisecond difference divided by 60000, i.e. whole minutes. -/
def calculateDuration (startMs endMs : Nat) : Int :=
  Int.fdiv (2 * ((endMs : Int) - (startMs : Int)) + 60000) 120000

/-- The flight shape returned by `formatFlight`. -/
structure RouteFlight where
  id : Nat
  flightNumber : JStr
  airlineName : JStr
  origin : JStr
  destination : JStr
  departureDateTime : Nat
  arrivalDateTime : Nat
deriving DecidableEq, Repr

/-- Helper `formatFlight` of the route service. -/
def formatFlight (f : Flight) : RouteFlight :=
  { id := f.id
    flightNumber := f.flightNumber
    airlineName := f.airlineName
    origin := f.origin
    destination := f.destination
    departureDateTime := f.departureDateTime
    arrivalDateTime := f.arrivalDateTime }

/-- One entry of the `direct` result list. -/
structure DirectRoute where
  flight : RouteFlight
  totalDuration : Int
deriving DecidableEq, Repr

/-- One entry of the `transit` result list. -/
structure TransitRoute where
  firstLeg : RouteFlight
  secondLeg : RouteFlight
  transitCity : JStr
  layoverDuration : Int
  totalDuration : Int
deriving DecidableEq, Repr

/-- Query `getDirectFlights`: catalog query for origin/destination within the day
window, sorted ascending by departure, each paired with its duration. -/
def getDirectFlights (catalog : List Flight) (origin destination : JStr)
    (startMs endMs : Nat) : List DirectRoute :=
  (sortByKey (fun f => (f.departureDateTime : Int))
      (catalog.filter (fun f =>
        decide (f.origin = origin ∧ f.destination = destination ∧
          startMs ≤ f.departureDateTime ∧ f.departureDateTime ≤ endMs)))).map
    (fun f =>
      { flight := formatFlight f
        totalDuration := calculateDuration f.departureDateTime f.arrivalDateTime })

/-- The transit-route record built for a first-leg/second-leg pair. -/
def mkTransitRoute (f1 f2 : Flight) : TransitRoute :=
  { firstLeg := formatFlight f1
    secondLeg := formatFlight f2
    transitCity := f1.destination
    layoverDuration := calculateDuration f1.arrivalDateTime f2.departureDateTime
    totalDuration := calculateDuration f1.departureDateTime f2.arrivalDateTime }

/-- Query `getTransitRoutes`: first legs leave the origin for some other city
within the day window; for each, second legs leave that transit city for the
destination no earlier than the first leg's arrival and no later than the end
of the next calendar day; all pairs are merged and sorted by total
duration. -/
def getTransitRoutes (catalog : List Flight) (origin destination : JStr)
    (startMs endMs : Nat) : List TransitRoute :=
  let firstLegFlights :=
    sortByKey (fun f => (f.departureDateTime : Int))
      (catalog.filter (fun f =>
        decide (f.origin = origin ∧ f.destination ≠ destination ∧
          startMs ≤ f.departureDateTime ∧ f.departureDateTime ≤ endMs)))
  if firstLegFlights.isEmpty then []
  else
    let transitRoutes := firstLegFlights.flatMap (fun f1 =>
      let secondLegFlights :=
        sortByKey (fun f => (f.departureDateTime : Int))
          (catalog.filter (fun f =>
            decide (f.origin = f1.destination ∧ f.destination = destination ∧
              f1.arrivalDateTime ≤ f.departureDateTime ∧
              f.departureDateTime ≤ endOfNextDay f1.arrivalDateTime)))
      secondLegFlights.map (mkTransitRoute f1))
    sortByKey (fun r => r.totalDuration) transitRoutes

/-- The `getRoutes` result record. -/
structure RoutesResult where
  direct : List DirectRoute
  transit : List TransitRoute
deriving DecidableEq, Repr

/-- Operation `getRoutes`: normalize the airport codes, compute the departure-day
window `[00:00:00.000, 23:59:59.999]` (the date is given as a UTC day
index), and run the direct and transit searches. -/
def getRoutes (catalog : List Flight) (origin destination : JStr)
    (dateDay : Nat) : RoutesResult :=
  let normalizedOrigin := jsUpperTrim origin
  let normalizedDestination := jsUpperTrim destination
  let startMs := dateDay * msPerDay
  let endMs := startMs + (msPerDay - 1)
  { direct := getDirectFlights catalog normalizedOrigin normalizedDestination startMs endMs
    transit := getTransitRoutes catalog normalizedOrigin normalizedDestination startMs endMs }

/-- Outcome of one `cancelBooking` call. -/
inductive COutcome where
  | ok
  | errArrived
  | errInvalid
  | conflict
deriving DecidableEq, Repr

/-- Progress of one `cancelBooking` caller: about to read, read done with the
locally-observed status, or finished with an outcome. -/
inductive CPhase where
  | start
  | readDone (observed : Status)
  | finished (r : COutcome)
deriving DecidableEq, Repr

/-- Shared state of two concurrent `cancelBooking` calls on one booking:
the stored document's status and timeline plus each caller's phase. -/
structure CState where
  status : Status
  timeline : List TimelineEvent
  p1 : CPhase
  p2 : CPhase
deriving DecidableEq, Repr

/-- Local phase transition of one `cancelBooking` caller.  The read step
captures the stored status; the write step runs the two local status checks
on the observed value and then the atomic `findOneAndUpdate` guarded by
`status ∈ [BOOKED, DEPARTED]`, which either writes `CANCELLED` (appending the
timeline event) or matches nothing. -/
def cancelPhaseStep (t : Nat) (status : Status) (timeline : List TimelineEvent) :
    CPhase → CPhase × Status × List TimelineEvent
  | .start => (.readDone status, status, timeline)
  | .readDone observed =>
    if observed = Status.ARRIVED then (.finished .errArrived, status, timeline)
    else if observed ∉ [Status.BOOKED, Status.DEPARTED] then
      (.finished .errInvalid, status, timeline)
    else if status ∈ [Status.BOOKED, Status.DEPARTED] then
      (.finished .ok, Status.CANCELLED,
        timeline ++ [{ event := .CANCELLED, timestamp := t, flightId := none }])
    else (.finished .conflict, status, timeline)
  | .finished r => (.finished r, status, timeline)

/-- One atomic step of the interleaving: `true` schedules caller 1, `false`
schedules caller 2. -/
def cancelStep (t : Nat) (st : CState) (which : Bool) : CState :=
  if which then
    let r := cancelPhaseStep t st.status st.timeline st.p1
    { status := r.2.1, timeline := r.2.2, p1 := r.1, p2 := st.p2 }
  else
    let r := cancelPhaseStep t st.status st.timeline st.p2
    { status := r.2.1, timeline := r.2.2, p1 := st.p1, p2 := r.1 }

/-- Run a schedule (list of scheduling choices) of the two-caller race. -/
def runCancelRace (t : Nat) (sched : List Bool) (st : CState) : CState :=
  sched.foldl (cancelStep t) st

/-- Initial race state: both callers have resolved the booking and are about
to read its status. -/
def initRace (status : Status) (timeline : List TimelineEvent) : CState :=
  { status := status, timeline := timeline, p1 := .start, p2 := .start }

/-- The outcome a caller has terminated with, if any. -/
def phaseOutcome : CPhase → Option COutcome
  | .finished r => some r
  | _ => none

/-- The transition table of the spec's state machine. -/
def allowedTransitions : List (Status × Status) :=
  [(.BOOKED, .DEPARTED), (.BOOKED, .ARRIVED), (.DEPARTED, .ARRIVED),
   (.BOOKED, .CANCELLED), (.DEPARTED, .CANCELLED)]

/-- Timeline timestamps are non-decreasing in order. -/
def tsSorted : List TimelineEvent → Prop
  | [] => True
  | [_] => True
  | a :: b :: r => a.timestamp ≤ b.timestamp ∧ tsSorted (b :: r)

/-- Invariant carried along a lifecycle trace: the timeline is non-empty,
chronologically sorted starting with the creation event `BOOKED`, and all its
timestamps are at most the current clock bound. -/
def timelineInv (bound : Nat) (b : Booking) : Prop :=
  b.timeline ≠ [] ∧ tsSorted b.timeline ∧
  b.timeline.head?.map TimelineEvent.event = some .BOOKED ∧
  ∀ x ∈ b.timeline, x.timestamp ≤ bound

/-- First leg of the spec's transit scenario: DEL to HYD, departing 08:00,
arriving 10:30 (UTC day 0). -/
def flightDelHyd : Flight :=
  { id := 1, flightNumber := "AI101".data, airlineName := "AI".data,
    origin := "DEL".data, destination := "HYD".data,
    departureDateTime := 28800000, arrivalDateTime := 37800000 }

/-- Valid second leg: HYD to BLR, departing 14:00, arriving 15:30. -/
def flightHydBlrLate : Flight :=
  { id := 2, flightNumber := "AI202".data, airlineName := "AI".data,
    origin := "HYD".data, destination := "BLR".data,
    departureDateTime := 50400000, arrivalDateTime := 55800000 }

/-- Too-early second-leg candidate: HYD to BLR, departing 09:00 (before the
first leg's 10:30 arrival), arriving 10:00. -/
def flightHydBlrEarly : Flight :=
  { id := 3, flightNumber := "AI303".data, airlineName := "AI".data,
    origin := "HYD".data, destination := "BLR".data,
    departureDateTime := 32400000, arrivalDateTime := 36000000 }

/-- Direct flight DEL to BLR on day 0. -/
def flightDelBlr : Flight :=
  { id := 4, flightNumber := "AI404".data, airlineName := "AI".data,
    origin := "DEL".data, destination := "BLR".data,
    departureDateTime := 30000000, arrivalDateTime := 39600000 }

/-- Characters that can appear in a generated `ref_id`. -/
def refIdChars : List Char := ['B', 'O', 'K', '-'] ++ decimalDigits

theorem mem_insertByKey (k : α → Int) (x a : α) (l : List α) :
    a ∈ insertByKey k x l ↔ a = x ∨ a ∈ l := by
  induction l with
  | nil => simp [insertByKey]
  | cons y ys ih =>
    by_cases h : k x ≤ k y
    · simp [insertByKey, h]
    · simp only [insertByKey, if_neg h, List.mem_cons, ih]
      tauto

theorem mem_sortByKey (k : α → Int) (a : α) (l : List α) :
    a ∈ sortByKey k l ↔ a ∈ l := by
  induction l with
  | nil => simp [sortByKey]
  | cons x xs ih => simp [sortByKey, mem_insertByKey, ih]

/-- C1: starting from a booking in status `BOOKED`, for every schedule of the
two concurrent `cancelBooking` calls (each caller takes its read step and its
write step, four atomic steps in all), both callers terminate, exactly one
succeeds, and the final stored status is `CANCELLED`; when the two calls
race (overlap, i.e. the schedule does not run one call to completion before
the other starts), the loser terminates with `ConcurrencyConflict`. -/
theorem c1_cancel_race_at_most_one_winner (sched : List Bool) (t : Nat)
    (tl : List TimelineEvent) (hlen : sched.length = 4)
    (hcount : sched.count true = 2) :
    ((phaseOutcome (runCancelRace t sched (initRace .BOOKED tl)).p1).isSome = true) ∧
    ((phaseOutcome (runCancelRace t sched (initRace .BOOKED tl)).p2).isSome = true) ∧
    (phaseOutcome (runCancelRace t sched (initRace .BOOKED tl)).p1 = some .ok ↔
      ¬ phaseOutcome (runCancelRace t sched (initRace .BOOKED tl)).p2 = some .ok) ∧
    (runCancelRace t sched (initRace .BOOKED tl)).status = .CANCELLED ∧
    (sched[0]? ≠ sched[1]? →
      (phaseOutcome (runCancelRace t sched (initRace .BOOKED tl)).p1 = some .ok →
        phaseOutcome (runCancelRace t sched (initRace .BOOKED tl)).p2 = some .conflict) ∧
      (phaseOutcome (runCancelRace t sched (initRace .BOOKED tl)).p2 = some .ok →
        phaseOutcome (runCancelRace t sched (initRace .BOOKED tl)).p1 = some .conflict)) := by
  rcases sched with _ | ⟨a, _ | ⟨b, _ | ⟨c, _ | ⟨d, _ | e⟩⟩⟩⟩ <;>
    simp only [List.length_nil, List.length_cons] at hlen <;> try omega
  cases a <;> cases b <;> cases c <;> cases d <;>
    simp_all [runCancelRace, cancelStep, cancelPhaseStep, initRace, phaseOutcome,
      List.count_cons, List.count_nil]

/-- Witness for C1 at a concrete racing schedule. -/
theorem c1_cancel_race_at_most_one_winner_witness :
    (phaseOutcome (runCancelRace 5 [true, false, true, false] (initRace .BOOKED [])).p1
      = some .ok) ∧
    (phaseOutcome (runCancelRace 5 [true, false, true, false] (initRace .BOOKED [])).p2
      = some .conflict) ∧
    (runCancelRace 5 [true, false, true, false] (initRace .BOOKED [])).status
      = .CANCELLED := by
  have h := c1_cancel_race_at_most_one_winner [true, false, true, false] 5 []
    (by decide) (by decide)
  refine ⟨by decide, by decide, h.2.2.2.1⟩

/-- C2: cancelling a booking whose locally-observed status is `ARRIVED`
fails with `InvalidTransition` and leaves the stored document unchanged
(sequentially the call is a no-op on the store); no successful lifecycle call
moves a booking from `ARRIVED` to `CANCELLED`; and even a raced
`cancelBooking` step never changes the stored status or timeline of a
booking whose stored status is `ARRIVED`, since the conditional write's
guard excludes `ARRIVED`. -/
theorem c2_no_cancel_after_arrived :
    (∀ (t : Nat) (b : Booking), b.status = .ARRIVED →
      applyOp .cancel t b = .error .invalidTransition ∧ stepB .cancel t b = b) ∧
    (∀ (op : Op) (t : Nat) (b b' : Booking), applyOp op t b = .ok b' →
      ¬ (b.status = .ARRIVED ∧ b'.status = .CANCELLED)) ∧
    (∀ (t : Nat) (st : CState) (w : Bool), st.status = .ARRIVED →
      (cancelStep t st w).status = .ARRIVED ∧ (cancelStep t st w).timeline = st.timeline) := by
  refine ⟨?_, ?_, ?_⟩
  · intro t b hb
    simp [applyOp, stepB, hb]
  · intro op t b b' h
    rintro ⟨hb, _⟩
    cases op <;> simp [applyOp, hb] at h
  · intro t st w hst
    cases w
    · rcases hph : st.p2 with _ | obs | r
      · simp [cancelStep, cancelPhaseStep, hph, hst]
      · rcases obs with _ | _ | _ | _ | _ <;> simp [cancelStep, cancelPhaseStep, hph, hst]
      · simp [cancelStep, cancelPhaseStep, hph, hst]
    · rcases hph : st.p1 with _ | obs | r
      · simp [cancelStep, cancelPhaseStep, hph, hst]
      · rcases obs with _ | _ | _ | _ | _ <;> simp [cancelStep, cancelPhaseStep, hph, hst]
      · simp [cancelStep, cancelPhaseStep, hph, hst]

/-- Witness for C2 at a concrete `ARRIVED` booking and race state. -/
theorem c2_no_cancel_after_arrived_witness :
    (applyOp .cancel 7
        { oid := [], ref_id := [], origin := [], destination := [], pieces := 1,
          weight_kg := 1, status := .ARRIVED, flightIds := [], timeline := [] }
      = .error .invalidTransition) ∧
    (cancelStep 7 (initRace .ARRIVED []) true).status = .ARRIVED := by
  have h := c2_no_cancel_after_arrived
  exact ⟨(h.1 7 _ rfl).1, (h.2.2 7 (initRace .ARRIVED []) true rfl).1⟩

/-- C3: every booking is created in status `BOOKED`; `departBooking`
succeeds exactly from `BOOKED` and yields `DEPARTED`; `arriveBooking`
succeeds exactly from `BOOKED` or `DEPARTED` and yields `ARRIVED`;
`cancelBooking` succeeds exactly from `BOOKED` or `DEPARTED` and yields
`CANCELLED`; hence every successful status change lies in the transition
table of the spec. -/
theorem c3_transition_table :
    (∀ (catalog : List Flight) (refs : List JStr) (oid o dst : JStr)
        (p w : Int) (fids : List Nat) (y m d t : Nat) (b : Booking),
      createBooking catalog refs oid o dst p w fids y m d t = .ok b →
      b.status = .BOOKED) ∧
    (∀ (fid : Option Nat) (t : Nat) (b b' : Booking),
      applyOp (.depart fid) t b = .ok b' → b.status = .BOOKED ∧ b'.status = .DEPARTED) ∧
    (∀ (fid : Option Nat) (t : Nat) (b b' : Booking),
      applyOp (.arrive fid) t b = .ok b' →
      (b.status = .BOOKED ∨ b.status = .DEPARTED) ∧ b'.status = .ARRIVED) ∧
    (∀ (t : Nat) (b b' : Booking),
      applyOp .cancel t b = .ok b' →
      (b.status = .BOOKED ∨ b.status = .DEPARTED) ∧ b'.status = .CANCELLED) ∧
    (∀ (op : Op) (t : Nat) (b b' : Booking), applyOp op t b = .ok b' →
      (b.status, b'.status) ∈ allowedTransitions) := by
  refine ⟨?_, ?_, ?_, ?_, ?_⟩
  · intro catalog refs oid o dst p w fids y m d t b h
    unfold createBooking at h
    split at h
    · exact absurd h (by simp)
    · simp only [Except.ok.injEq] at h
      subst h
      rfl
  · intro fid t b b' h
    rcases hs : b.status with _ | _ | _ | _ | _ <;> simp_all [applyOp]
    all_goals simp [← h]
  · intro fid t b b' h
    rcases hs : b.status with _ | _ | _ | _ | _ <;> simp_all [applyOp]
    all_goals simp [← h]
  · intro t b b' h
    rcases hs : b.status with _ | _ | _ | _ | _ <;> simp_all [applyOp]
    all_goals simp [← h]
  · intro op t b b' h
    cases op <;> rcases hs : b.status with _ | _ | _ | _ | _ <;>
      simp_all [applyOp] <;> try simp [allowedTransitions, ← h]

/-- Witness for C3 at concrete calls. -/
theorem c3_transition_table_witness :
    (createBooking [] [] [] "del".data "blr".data 2 30 [] 2026 10 11 5
      = .ok
        { oid := [], ref_id := "BOOK-20261011-000001".data, origin := "DEL".data,
          destination := "BLR".data, pieces := 2, weight_kg := 30, status := .BOOKED,
          flightIds := [],
          timeline := [{ event := .BOOKED, timestamp := 5, flightId := none }] }) ∧
    Booking.status
        { oid := [], ref_id := "BOOK-20261011-000001".data, origin := "DEL".data,
          destination := "BLR".data, pieces := 2, weight_kg := 30, status := .BOOKED,
          flightIds := [],
          timeline := [{ event := .BOOKED, timestamp := 5, flightId := none }] }
      = .BOOKED ∧
    (applyOp (.depart none) 9
        { oid := [], ref_id := [], origin := [], destination := [], pieces := 1,
          weight_kg := 1, status := .BOOKED, flightIds := [], timeline := [] }
      = .ok
        { oid := [], ref_id := [], origin := [], destination := [], pieces := 1,
          weight_kg := 1, status := .DEPARTED, flightIds := [],
          timeline := [{ event := .DEPARTED, timestamp := 9, flightId := none }] }) ∧
    Booking.status
        { oid := [], ref_id := [], origin := [], destination := [], pieces := 1,
          weight_kg := 1, status := .DEPARTED, flightIds := [],
          timeline := [{ event := .DEPARTED, timestamp := 9, flightId := none }] }
      = .DEPARTED := by
  refine ⟨rfl, ?_, rfl, ?_⟩
  · exact c3_transition_table.1 [] [] [] "del".data "blr".data 2 30 [] 2026 10 11 5
      { oid := [], ref_id := "BOOK-20261011-000001".data, origin := "DEL".data,
        destination := "BLR".data, pieces := 2, weight_kg := 30, status := .BOOKED,
        flightIds := [],
        timeline := [{ event := .BOOKED, timestamp := 5, flightId := none }] } rfl
  · exact (c3_transition_table.2.1 none 9
      { oid := [], ref_id := [], origin := [], destination := [], pieces := 1,
        weight_kg := 1, status := .BOOKED, flightIds := [], timeline := [] }
      { oid := [], ref_id := [], origin := [], destination := [], pieces := 1,
        weight_kg := 1, status := .DEPARTED, flightIds := [],
        timeline := [{ event := .DEPARTED, timestamp := 9, flightId := none }] } rfl).2

theorem tsSorted_append_last : ∀ (l : List TimelineEvent) (e : TimelineEvent),
    tsSorted l → (∀ x ∈ l, x.timestamp ≤ e.timestamp) → tsSorted (l ++ [e])
  | [], _, _, _ => True.intro
  | [a], e, _, h => ⟨h a (by simp), True.intro⟩
  | a :: b :: r, e, hs, h =>
    ⟨hs.1, tsSorted_append_last (b :: r) e hs.2 (fun x hx => h x (by simp [hx]))⟩

theorem stepB_timeline_shape (op : Op) (t : Nat) (b : Booking) :
    stepB op t b = b ∨
    ∃ ev fid, (stepB op t b).timeline
      = b.timeline ++ [{ event := ev, timestamp := t, flightId := fid }] := by
  cases op <;> rcases hs : b.status with _ | _ | _ | _ | _ <;>
    simp [stepB, applyOp, hs]

theorem timelineInv_mono (bound t : Nat) (b : Booking) (h : timelineInv bound b)
    (hle : bound ≤ t) : timelineInv t b :=
  ⟨h.1, h.2.1, h.2.2.1, fun x hx => le_trans (h.2.2.2 x hx) hle⟩

theorem timelineInv_step (op : Op) (t bound : Nat) (b : Booking)
    (hinv : timelineInv bound b) (hbt : bound ≤ t) :
    timelineInv t (stepB op t b) := by
  rcases stepB_timeline_shape op t b with heq | ⟨ev, fid, heq⟩
  · rw [heq]
    exact timelineInv_mono bound t b hinv hbt
  · have hall : ∀ x ∈ b.timeline, x.timestamp
        ≤ (TimelineEvent.mk ev t fid).timestamp :=
      fun x hx => le_trans (hinv.2.2.2 x hx) hbt
    refine ⟨by simp [heq], ?_, ?_, ?_⟩
    · rw [heq]
      exact tsSorted_append_last b.timeline _ hinv.2.1 hall
    · rw [heq]
      rcases htl : b.timeline with _ | ⟨x, xs⟩
      · exact absurd htl hinv.1
      · have := hinv.2.2.1
        rw [htl] at this
        simpa using this
    · rw [heq]
      intro x hx
      rcases List.mem_append.mp hx with hx | hx
      · exact le_trans (hinv.2.2.2 x hx) hbt
      · simp at hx
        simp [hx]

theorem runOps_inv : ∀ (ops : List (Op × Nat)) (b : Booking) (bound : Nat),
    timelineInv bound b → chron bound ops →
    ∃ bd, timelineInv bd (runOps b ops)
  | [], _, bound, h, _ => ⟨bound, h⟩
  | (op, t) :: rest, b, bound, h, hc =>
    runOps_inv rest (stepB op t b) t (timelineInv_step op t bound b h hc.1) hc.2

/-- C7: for every booking obtained by a successful `createBooking` followed
by any chronological trace of `depart`/`arrive`/`cancel` calls (successful or
failed), the timeline is non-empty, its timestamps are non-decreasing, and
its first entry's event is the initial status `BOOKED`. -/
theorem c7_timeline_invariant (catalog : List Flight) (refs : List JStr)
    (oid o dst : JStr) (p w : Int) (fids : List Nat) (y m d t0 : Nat)
    (ops : List (Op × Nat)) (b : Booking)
    (hok : createBooking catalog refs oid o dst p w fids y m d t0 = .ok b)
    (hchron : chron t0 ops) :
    (runOps b ops).timeline ≠ [] ∧ tsSorted (runOps b ops).timeline ∧
    (runOps b ops).timeline.head?.map TimelineEvent.event = some .BOOKED := by
  have hb : b.timeline = [{ event := .BOOKED, timestamp := t0, flightId := none }] := by
    unfold createBooking at hok
    split at hok
    · exact absurd hok (by simp)
    · simp only [Except.ok.injEq] at hok
      rw [← hok]
  have hinv : timelineInv t0 b := by
    rw [timelineInv, hb]
    refine ⟨by simp, True.intro, by simp, by simp⟩
  rcases runOps_inv ops b t0 hinv hchron with ⟨bd, hfin⟩
  exact ⟨hfin.1, hfin.2.1, hfin.2.2.1⟩

/-- Witness for C7 on a concrete create + depart + cancel trace. -/
theorem c7_timeline_invariant_witness :
    (runOps
        { oid := [], ref_id := "BOOK-20261011-000001".data, origin := "DEL".data,
          destination := "BLR".data, pieces := 2, weight_kg := 30, status := .BOOKED,
          flightIds := [],
          timeline := [{ event := .BOOKED, timestamp := 5, flightId := none }] }
        [(Op.depart none, 10), (Op.cancel, 20)]).timeline ≠ [] ∧
    tsSorted (runOps
        { oid := [], ref_id := "BOOK-20261011-000001".data, origin := "DEL".data,
          destination := "BLR".data, pieces := 2, weight_kg := 30, status := .BOOKED,
          flightIds := [],
          timeline := [{ event := .BOOKED, timestamp := 5, flightId := none }] }
        [(Op.depart none, 10), (Op.cancel, 20)]).timeline ∧
    (runOps
        { oid := [], ref_id := "BOOK-20261011-000001".data, origin := "DEL".data,
          destination := "BLR".data, pieces := 2, weight_kg := 30, status := .BOOKED,
          flightIds := [],
          timeline := [{ event := .BOOKED, timestamp := 5, flightId := none }] }
        [(Op.depart none, 10), (Op.cancel, 20)]).timeline.head?.map TimelineEvent.event
      = some .BOOKED :=
  c7_timeline_invariant [] [] [] "del".data "blr".data 2 30 [] 2026 10 11 5
    [(Op.depart none, 10), (Op.cancel, 20)] _ rfl
    ⟨by norm_num, by norm_num, True.intro⟩

theorem maxRef?_mem : ∀ (l : List JStr) (m : JStr), maxRef? l = some m → m ∈ l := by
  intro l
  induction l with
  | nil => intro m h; simp [maxRef?] at h
  | cons r rs ih =>
    intro m h
    simp only [maxRef?, Option.some.injEq] at h
    rcases hm : maxRef? rs with _ | m'
    · rw [hm] at h
      simp only [maxRefStep] at h
      simp [← h]
    · rw [hm] at h
      simp only [maxRefStep] at h
      by_cases hlt : r < m'
      · rw [if_pos hlt] at h
        exact List.mem_cons_of_mem r (ih m (by rw [hm, h]))
      · rw [if_neg hlt] at h
        simp [← h]

theorem maxRef?_of_greatest : ∀ (l : List JStr) (g : JStr), g ∈ l →
    (∀ r ∈ l, r ≤ g) → maxRef? l = some g := by
  intro l
  induction l with
  | nil => intro g hg; simp at hg
  | cons r rs ih =>
    intro g hg hge
    simp only [maxRef?, Option.some.injEq]
    rcases hm : maxRef? rs with _ | m'
    · rcases List.mem_cons.mp hg with hg | hg
      · simp only [maxRefStep]
        exact hg.symm
      · exact absurd hm
          (by rw [ih g hg (fun x hx => hge x (List.mem_cons_of_mem r hx))]; simp)
    · have hm'le : m' ≤ g := hge m' (List.mem_cons_of_mem r (maxRef?_mem rs m' hm))
      simp only [maxRefStep]
      rcases List.mem_cons.mp hg with hg | hg
      · subst hg
        rw [if_neg (not_lt.mpr hm'le)]
      · have hrec := ih g hg (fun x hx => hge x (List.mem_cons_of_mem r hx))
        rw [hrec] at hm
        cases hm
        by_cases hlt : r < g
        · rw [if_pos hlt]
        · rw [if_neg hlt]
          exact le_antisymm (hge r (List.mem_cons_self r rs)) (not_lt.mp hlt)

/-- C5: the `ref_id` pre-save hook builds the prefix `BOOK-YYYYMMDD-` from
the UTC calendar date, and produces the prefix followed by the 6-digit
zero-padded decimal rendering of: one plus the parsed numeric suffix of the
lexicographically greatest existing `ref_id` with that prefix, or the
sequence 1 when no `ref_id` exists for that day. -/
theorem c5_ref_id_allocation (existing : List JStr) (y m d : Nat) :
    (existing.filter (fun r => (refIdPre (mkDateStr y m d)).isPrefixOf r) = [] →
      generateRefId existing (mkDateStr y m d)
        = refIdPre (mkDateStr y m d) ++ padZeros 6 (natToDecimal 1)) ∧
    (∀ (g : JStr) (n : Nat),
      g ∈ existing.filter (fun r => (refIdPre (mkDateStr y m d)).isPrefixOf r) →
      (∀ r ∈ existing.filter (fun r => (refIdPre (mkDateStr y m d)).isPrefixOf r), r ≤ g) →
      parseRefSuffix g = some n →
      generateRefId existing (mkDateStr y m d)
        = refIdPre (mkDateStr y m d) ++ padZeros 6 (natToDecimal (n + 1))) := by
  constructor
  · intro hempty
    simp only [generateRefId, genSequence]
    rw [hempty]
    rfl
  · intro g n hmem hgreatest hparse
    simp only [generateRefId, genSequence]
    rw [maxRef?_of_greatest _ g hmem hgreatest]
    simp [hparse]

/-- Witness for C5: with two same-day `ref_id`s and one foreign key present,
the allocator continues from the greatest suffix. -/
theorem c5_ref_id_allocation_witness :
    generateRefId
        ["BOOK-20261011-000002".data, "BOOK-20261011-000007".data, "OTHER".data]
        (mkDateStr 2026 10 11)
      = refIdPre (mkDateStr 2026 10 11) ++ padZeros 6 (natToDecimal 8) :=
  (c5_ref_id_allocation
      ["BOOK-20261011-000002".data, "BOOK-20261011-000007".data, "OTHER".data]
      2026 10 11).2 "BOOK-20261011-000007".data 7 (by decide) (by decide) (by decide)

theorem mem_transit_exists (catalog : List Flight) (o d : JStr) (s e : Nat)
    (r : TransitRoute) (hr : r ∈ getTransitRoutes catalog o d s e) :
    ∃ f1 f2 : Flight, f1 ∈ catalog ∧ f2 ∈ catalog ∧
      f1.origin = o ∧ f1.destination ≠ d ∧
      s ≤ f1.departureDateTime ∧ f1.departureDateTime ≤ e ∧
      f2.origin = f1.destination ∧ f2.destination = d ∧
      f1.arrivalDateTime ≤ f2.departureDateTime ∧
      f2.departureDateTime ≤ endOfNextDay f1.arrivalDateTime ∧
      r = mkTransitRoute f1 f2 := by
  simp only [getTransitRoutes] at hr
  split at hr
  · simp at hr
  · rw [mem_sortByKey] at hr
    rcases List.mem_flatMap.mp hr with ⟨f1, hf1, hr2⟩
    rw [mem_sortByKey, List.mem_filter] at hf1
    rcases List.mem_map.mp hr2 with ⟨f2, hf2, hout⟩
    rw [mem_sortByKey, List.mem_filter] at hf2
    have h1 := of_decide_eq_true hf1.2
    have h2 := of_decide_eq_true hf2.2
    exact ⟨f1, f2, hf1.1, hf2.1, h1.1, h1.2.1, h1.2.2.1, h1.2.2.2,
      h2.1, h2.2.1, h2.2.2.1, h2.2.2.2, hout.symm⟩

/-- C4: every transit route returned by `getRoutes` has its second leg
departing no earlier than the first leg's arrival and no later than
23:59:59.999 of the following calendar day; and in the concrete scenario
where the only second-leg candidate departs 09:00, before the first leg's
10:30 arrival, the transit result is empty. -/
theorem c4_transit_window :
    (∀ (catalog : List Flight) (o d : JStr) (day : Nat) (r : TransitRoute),
      r ∈ (getRoutes catalog o d day).transit →
      r.firstLeg.arrivalDateTime ≤ r.secondLeg.departureDateTime ∧
      r.secondLeg.departureDateTime ≤ endOfNextDay r.firstLeg.arrivalDateTime) ∧
    (getRoutes [flightDelHyd, flightHydBlrEarly] "DEL".data "BLR".data 0).transit = [] := by
  constructor
  · intro catalog o d day r hr
    rcases mem_transit_exists _ _ _ _ _ r hr with
      ⟨f1, f2, _, _, _, _, _, _, _, _, hw1, hw2, hreq⟩
    rw [hreq]
    exact ⟨hw1, hw2⟩
  · decide

/-- Witness for C4 in the spec's inclusion scenario: DELHYD 08:00 to 10:30
plus HYDBLR 14:00 yields a transit route whose layover window bounds hold. -/
theorem c4_transit_window_witness :
    (mkTransitRoute flightDelHyd flightHydBlrLate
        ∈ (getRoutes [flightDelHyd, flightHydBlrLate] "DEL".data "BLR".data 0).transit) ∧
    (37800000 ≤ 50400000 ∧ 50400000 ≤ endOfNextDay 37800000) := by
  refine ⟨by decide, ?_⟩
  exact c4_transit_window.1 [flightDelHyd, flightHydBlrLate] "DEL".data "BLR".data 0
    (mkTransitRoute flightDelHyd flightHydBlrLate) (by decide)

/-- C9: no transit route's first leg terminates at the query's (normalized)
destination — a flight from origin to destination is excluded from transit
search; and every catalog flight from the normalized origin to the
normalized destination departing within the day window appears in the
direct list. -/
theorem c9_direct_transit_disjoint :
    (∀ (catalog : List Flight) (o d : JStr) (day : Nat) (r : TransitRoute),
      r ∈ (getRoutes catalog o d day).transit →
      r.firstLeg.destination ≠ jsUpperTrim d) ∧
    (∀ (catalog : List Flight) (o d : JStr) (day : Nat) (f : Flight),
      f ∈ catalog → f.origin = jsUpperTrim o → f.destination = jsUpperTrim d →
      day * msPerDay ≤ f.departureDateTime →
      f.departureDateTime ≤ day * msPerDay + (msPerDay - 1) →
      (DirectRoute.mk (formatFlight f)
          (calculateDuration f.departureDateTime f.arrivalDateTime))
        ∈ (getRoutes catalog o d day).direct) := by
  constructor
  · intro catalog o d day r hr
    rcases mem_transit_exists _ _ _ _ _ r hr with
      ⟨f1, f2, _, _, _, hne, _, _, _, _, _, _, hreq⟩
    rw [hreq]
    exact hne
  · intro catalog o d day f hf ho hd h1 h2
    simp only [getRoutes, getDirectFlights]
    rw [List.mem_map]
    refine ⟨f, ?_, rfl⟩
    rw [mem_sortByKey, List.mem_filter]
    exact ⟨hf, decide_eq_true (by exact ⟨ho, hd, h1, h2⟩)⟩

/-- Witness for C9: the direct DEL-BLR flight lands in the direct list of a
mixed catalog, and a transit route of that catalog avoids BLR as first-leg
destination. -/
theorem c9_direct_transit_disjoint_witness :
    ((DirectRoute.mk (formatFlight flightDelBlr)
        (calculateDuration flightDelBlr.departureDateTime flightDelBlr.arrivalDateTime))
      ∈ (getRoutes [flightDelHyd, flightHydBlrLate, flightDelBlr]
          "DEL".data "BLR".data 0).direct) ∧
    (mkTransitRoute flightDelHyd flightHydBlrLate).firstLeg.destination ≠ "BLR".data := by
  constructor
  · exact c9_direct_transit_disjoint.2 [flightDelHyd, flightHydBlrLate, flightDelBlr]
      "DEL".data "BLR".data 0 flightDelBlr (by decide) (by decide) (by decide)
      (by decide) (by decide)
  · have := c9_direct_transit_disjoint.1 [flightDelHyd, flightHydBlrLate, flightDelBlr]
      "DEL".data "BLR".data 0 (mkTransitRoute flightDelHyd flightHydBlrLate) (by decide)
    simpa using this

theorem filter_mem_length_eq_iff {α : Type} [DecidableEq α] (A ids : List α)
    (hA : A.Nodup) :
    (A.filter (fun x => decide (x ∈ ids))).length = ids.length ↔
      ids.Nodup ∧ ∀ i ∈ ids, i ∈ A := by
  have hFnd : (A.filter (fun x => decide (x ∈ ids))).Nodup := hA.filter _
  have hFfin : (A.filter (fun x => decide (x ∈ ids))).toFinset
      = A.toFinset ∩ ids.toFinset := by
    ext x
    simp [List.mem_toFinset, List.mem_filter]
  have hFlen : (A.filter (fun x => decide (x ∈ ids))).length
      = (A.toFinset ∩ ids.toFinset).card := by
    rw [← hFfin, List.toFinset_card_of_nodup hFnd]
  constructor
  · intro hlen
    rw [hFlen] at hlen
    have hle1 : (A.toFinset ∩ ids.toFinset).card ≤ ids.toFinset.card :=
      Finset.card_le_card Finset.inter_subset_right
    have hle2 : ids.toFinset.card ≤ ids.length := List.toFinset_card_le ids
    have hcard : ids.toFinset.card = ids.length := by omega
    have hnd : ids.Nodup := by
      have := Multiset.toFinset_card_eq_card_iff_nodup (m := (ids : Multiset α))
      simp only [Multiset.coe_card, Multiset.coe_nodup] at this
      exact this.mp hcard
    have hinter : A.toFinset ∩ ids.toFinset = ids.toFinset :=
      Finset.eq_of_subset_of_card_le Finset.inter_subset_right (by omega)
    refine ⟨hnd, fun i hi => ?_⟩
    have : i ∈ A.toFinset ∩ ids.toFinset := by
      rw [hinter, List.mem_toFinset]
      exact hi
    exact List.mem_toFinset.mp (Finset.mem_inter.mp this).1
  · rintro ⟨hnd, hsub⟩
    rw [hFlen]
    have hinter : A.toFinset ∩ ids.toFinset = ids.toFinset :=
      Finset.inter_eq_right.mpr (fun x hx =>
        List.mem_toFinset.mpr (hsub x (List.mem_toFinset.mp hx)))
    rw [hinter]
    exact List.toFinset_card_of_nodup hnd

theorem catalog_filter_length (catalog : List Flight) (ids : List Nat) :
    (catalog.filter (fun f => decide (f.id ∈ ids))).length
      = ((catalog.map Flight.id).filter (fun x => decide (x ∈ ids))).length := by
  rw [List.filter_map]
  rw [List.length_map]
  rfl

/-- Counterexample to C6 as stated: every entry of `[1, 1]` resolves to the
single catalog flight with id 1, yet creation fails, because the `$in` query
returns one document against two requested entries. -/
theorem c6_flight_validation_counterexample :
    (∀ i ∈ [1, 1], ∃ f ∈ [flightDelHyd], f.id = i) ∧
    createBooking [flightDelHyd] [] [] "del".data "blr".data 2 30 [1, 1] 2026 10 11 5
      = .error .invalidFlightReference := by
  constructor
  · decide
  · rfl

/-- C6 (amended): with distinct catalog ids, creation fails with
`InvalidFlightReference` iff `flightIds` has a duplicate or some entry does
not resolve to an existing flight; equivalently, it succeeds iff the entries
are pairwise distinct and all resolve. -/
theorem c6_flight_validation_amended (catalog : List Flight)
    (refs : List JStr) (oid o dst : JStr) (p w : Int) (fids : List Nat)
    (y m d t : Nat) (hnd : (catalog.map Flight.id).Nodup) :
    (createBooking catalog refs oid o dst p w fids y m d t
        = .error .invalidFlightReference
      ↔ ¬ (fids.Nodup ∧ ∀ i ∈ fids, ∃ f ∈ catalog, f.id = i)) ∧
    ((fids.Nodup ∧ ∀ i ∈ fids, ∃ f ∈ catalog, f.id = i) →
      ∃ b, createBooking catalog refs oid o dst p w fids y m d t = .ok b) := by
  have hresolve : (∀ i ∈ fids, ∃ f ∈ catalog, f.id = i) ↔
      ∀ i ∈ fids, i ∈ catalog.map Flight.id := by
    constructor
    · intro h i hi
      rcases h i hi with ⟨f, hf, hfi⟩
      exact List.mem_map.mpr ⟨f, hf, hfi⟩
    · intro h i hi
      rcases List.mem_map.mp (h i hi) with ⟨f, hf, hfi⟩
      exact ⟨f, hf, hfi⟩
  have hkey : (catalog.filter (fun f => decide (f.id ∈ fids))).length = fids.length ↔
      fids.Nodup ∧ ∀ i ∈ fids, ∃ f ∈ catalog, f.id = i := by
    rw [catalog_filter_length, filter_mem_length_eq_iff _ _ hnd, hresolve]
  constructor
  · unfold createBooking
    split
    · rename_i hcond
      simp only [true_iff]
      intro hgood
      exact hcond.2 (hkey.mpr hgood)
    · rename_i hcond
      push_neg at hcond
      constructor
      · intro h
        simp at h
      · intro hneg
        exfalso
        apply hneg
        rcases Nat.eq_zero_or_pos fids.length with hlen | hlen
        · rw [List.length_eq_zero] at hlen
          subst hlen
          exact ⟨List.nodup_nil, by simp⟩
        · exact hkey.mp (hcond hlen)
  · intro hgood
    unfold createBooking
    split
    · rename_i hcond
      exact absurd (hkey.mpr hgood) hcond.2
    · exact ⟨_, rfl⟩

/-- Witness for C6 (amended): a duplicate-free resolving list succeeds, and
the same list with a stray id is rejected. -/
theorem c6_flight_validation_amended_witness :
    (¬ (createBooking [flightDelHyd, flightHydBlrLate] [] [] "del".data "blr".data
          2 30 [1, 2] 2026 10 11 5 = .error .invalidFlightReference)) ∧
    (createBooking [flightDelHyd, flightHydBlrLate] [] [] "del".data "blr".data
        2 30 [1, 9] 2026 10 11 5 = .error .invalidFlightReference) := by
  constructor
  · intro hcontra
    rcases (c6_flight_validation_amended [flightDelHyd, flightHydBlrLate] [] []
        "del".data "blr".data 2 30 [1, 2] 2026 10 11 5 (by decide)).2
        ⟨by decide, by decide⟩ with ⟨b, hb⟩
    rw [hb] at hcontra
    simp at hcontra
  · exact (c6_flight_validation_amended [flightDelHyd, flightHydBlrLate] [] []
      "del".data "blr".data 2 30 [1, 9] 2026 10 11 5 (by decide)).1.mpr (by decide)

theorem decimalDigit_mem (d : Nat) : decimalDigit d ∈ decimalDigits := by
  by_cases h : d < 10
  · interval_cases d <;> decide
  · rw [decimalDigit, List.getD_eq_default]
    · decide
    · have h10 : decimalDigits.length = 10 := by decide
      omega

theorem natToDecimalAux_chars : ∀ (fuel n : Nat) (c : Char),
    c ∈ natToDecimalAux fuel n → c ∈ decimalDigits := by
  intro fuel
  induction fuel with
  | zero => intro n c h; simp [natToDecimalAux] at h
  | succ fuel ih =>
    intro n c h
    rw [natToDecimalAux] at h
    by_cases hn : n < 10
    · rw [if_pos hn] at h
      simp only [List.mem_singleton] at h
      rw [h]
      exact decimalDigit_mem n
    · rw [if_neg hn] at h
      rcases List.mem_append.mp h with h | h
      · exact ih (n / 10) c h
      · simp only [List.mem_singleton] at h
        rw [h]
        exact decimalDigit_mem (n % 10)

theorem natToDecimal_chars (n : Nat) (c : Char) (h : c ∈ natToDecimal n) :
    c ∈ decimalDigits :=
  natToDecimalAux_chars (n + 1) n c h

theorem padZeros_chars (w : Nat) (s : JStr) (c : Char) (h : c ∈ padZeros w s) :
    c = '0' ∨ c ∈ s := by
  rcases List.mem_append.mp h with h | h
  · exact Or.inl (List.eq_of_mem_replicate h)
  · exact Or.inr h

theorem mkDateStr_chars (y m d : Nat) (c : Char) (h : c ∈ mkDateStr y m d) :
    c ∈ decimalDigits := by
  have hzero : ('0' : Char) ∈ decimalDigits := by decide
  rcases List.mem_append.mp h with h | h
  · rcases List.mem_append.mp h with h | h
    · rcases padZeros_chars _ _ _ h with h | h
      · rw [h]; exact hzero
      · exact natToDecimal_chars _ _ h
    · rcases padZeros_chars _ _ _ h with h | h
      · rw [h]; exact hzero
      · exact natToDecimal_chars _ _ h
  · rcases padZeros_chars _ _ _ h with h | h
    · rw [h]; exact hzero
    · exact natToDecimal_chars _ _ h

theorem generateRefId_chars (existing : List JStr) (y m d : Nat) (c : Char)
    (h : c ∈ generateRefId existing (mkDateStr y m d)) : c ∈ refIdChars := by
  have hdig : ∀ c' ∈ decimalDigits, c' ∈ refIdChars := by decide
  have hbook : ∀ c' ∈ ("BOOK-".data : JStr), c' ∈ refIdChars := by decide
  have hdash : ∀ c' ∈ ("-".data : JStr), c' ∈ refIdChars := by decide
  simp only [generateRefId, refIdPre] at h
  rcases List.mem_append.mp h with h | h
  · rcases List.mem_append.mp h with h | h
    · rcases List.mem_append.mp h with h | h
      · exact hbook c h
      · exact hdig c (mkDateStr_chars y m d c h)
    · exact hdash c h
  · rcases padZeros_chars _ _ _ h with h | h
    · rw [h]; exact hdig '0' (by decide)
    · exact hdig c (natToDecimal_chars _ _ h)

theorem dropWhile_eq_self_of_none (p : Char → Bool) (l : JStr)
    (h : ∀ c ∈ l, p c = false) : l.dropWhile p = l := by
  cases l with
  | nil => rfl
  | cons x xs =>
    rw [List.dropWhile_cons, h x (List.mem_cons_self x xs)]
    simp

theorem map_id_of_fixed (f : Char → Char) (l : JStr)
    (h : ∀ c ∈ l, f c = c) : l.map f = l := by
  induction l with
  | nil => rfl
  | cons x xs ih =>
    rw [List.map_cons, h x (List.mem_cons_self x xs),
      ih (fun c hc => h c (List.mem_cons_of_mem x hc))]

theorem jsUpperTrim_fixed (s : JStr) (h : ∀ c ∈ s, c ∈ refIdChars) :
    jsUpperTrim s = s := by
  have hupfix : ∀ x ∈ refIdChars, Char.toUpper x = x := by decide
  have hwsfix : ∀ x ∈ refIdChars, x.isWhitespace = false := by decide
  have hupper : jsToUpper s = s :=
    map_id_of_fixed _ _ (fun c hc => hupfix c (h c hc))
  have hws : ∀ c ∈ s, c.isWhitespace = false := fun c hc => hwsfix c (h c hc)
  rw [jsUpperTrim, hupper, jsTrim]
  rw [dropWhile_eq_self_of_none _ _ hws]
  rw [dropWhile_eq_self_of_none _ _ (fun c hc => hws c (List.mem_reverse.mp hc))]
  exact List.reverse_reverse s

theorem padZeros_length_ge (w : Nat) (s : JStr) : w ≤ (padZeros w s).length := by
  rw [padZeros, List.length_append, List.length_replicate]
  omega

theorem generateRefId_length_ge (existing : List JStr) (y m d : Nat) :
    20 ≤ (generateRefId existing (mkDateStr y m d)).length := by
  rw [generateRefId, refIdPre]
  simp only [List.length_append]
  have h4 := padZeros_length_ge 6 (natToDecimal (genSequence existing (mkDateStr y m d)))
  have hds : 8 ≤ (mkDateStr y m d).length := by
    rw [mkDateStr]
    simp only [List.length_append]
    have h1 := padZeros_length_ge 4 (natToDecimal y)
    have h2 := padZeros_length_ge 2 (natToDecimal m)
    have h3 := padZeros_length_ge 2 (natToDecimal d)
    omega
  have hbook : (['B', 'O', 'O', 'K', '-'] : JStr).length = 5 := by decide
  have hdash : (['-'] : JStr).length = 1 := by decide
  omega

theorem isValidObjectId_generateRefId (existing : List JStr) (y m d : Nat) :
    isValidObjectId (generateRefId existing (mkDateStr y m d)) = false := by
  have hlen := generateRefId_length_ge existing y m d
  have hO : ('O' : Char) ∈ generateRefId existing (mkDateStr y m d) := by
    simp only [generateRefId, refIdPre]
    refine List.mem_append.mpr (Or.inl (List.mem_append.mpr (Or.inl ?_)))
    refine List.mem_append.mpr (Or.inl ?_)
    decide
  simp only [isValidObjectId, decide_eq_false_iff_not]
  push_neg
  constructor
  · omega
  · intro _
    intro hall
    have := List.all_eq_true.mp hall 'O' hO
    simp [isHexChar] at this

theorem getBookingHistory_append_fresh (store : List Booking) (b : Booking)
    (hvalid : isValidObjectId b.ref_id = false)
    (hfix : jsUpperTrim b.ref_id = b.ref_id)
    (hfresh : ∀ b' ∈ store, b'.ref_id ≠ b.ref_id) :
    getBookingHistory (store ++ [b]) b.ref_id
      = .ok { b with timeline := sortByKey (fun e => (e.timestamp : Int)) b.timeline } := by
  have hnone : store.find? (fun x => decide (x.ref_id = b.ref_id)) = none := by
    rw [List.find?_eq_none]
    intro x hx
    simp only [decide_eq_true_eq]
    exact hfresh x hx
  have hfind : findBookingByIdentifier (store ++ [b]) b.ref_id = some b := by
    simp only [findBookingByIdentifier, hvalid, Bool.false_eq_true, if_false,
      hfix, List.find?_append, hnone, Option.none_or, List.find?_cons,
      eq_self_iff_true, decide_True]
  simp only [getBookingHistory, hfind]

/-- Counterexample to C8 as stated: submitting origin `" del "` succeeds,
but the booking returned by the immediate `history` call carries the
normalized origin `"DEL"`, not the submitted string — the fields do not
match *exactly* what was submitted. -/
theorem c8_history_roundtrip_counterexample :
    (createBooking [] [] "OID1".data " del ".data "blr".data 3 10 [] 2026 10 11 1000
      = .ok
        { oid := "OID1".data, ref_id := "BOOK-20261011-000001".data,
          origin := "DEL".data, destination := "BLR".data, pieces := 3,
          weight_kg := 10, status := .BOOKED, flightIds := [],
          timeline := [{ event := .BOOKED, timestamp := 1000, flightId := none }] }) ∧
    (getBookingHistory
        [{ oid := "OID1".data, ref_id := "BOOK-20261011-000001".data,
           origin := "DEL".data, destination := "BLR".data, pieces := 3,
           weight_kg := 10, status := .BOOKED, flightIds := [],
           timeline := [{ event := .BOOKED, timestamp := 1000, flightId := none }] }]
        "BOOK-20261011-000001".data
      = .ok
        { oid := "OID1".data, ref_id := "BOOK-20261011-000001".data,
          origin := "DEL".data, destination := "BLR".data, pieces := 3,
          weight_kg := 10, status := .BOOKED, flightIds := [],
          timeline := [{ event := .BOOKED, timestamp := 1000, flightId := none }] }) ∧
    ("DEL".data : JStr) ≠ " del ".data := by
  exact ⟨rfl, rfl, by decide⟩

/-- C8 (amended): a successful `createBooking` followed immediately by
`getBookingHistory` on the returned `ref_id` finds the new booking: the
returned fields equal the submitted ones up to the controller's
normalization (airport codes uppercased and trimmed, numbers unchanged),
the status is `BOOKED`, and the timeline has length exactly 1. -/
theorem c8_create_history_amended (catalog : List Flight) (store : List Booking)
    (oid o dst : JStr) (p w : Int) (fids : List Nat) (y m d t : Nat) (b : Booking)
    (hok : createBooking catalog (store.map Booking.ref_id) oid o dst p w fids y m d t
      = .ok b)
    (hfresh : ∀ b' ∈ store, b'.ref_id ≠ b.ref_id) :
    ∃ h, getBookingHistory (store ++ [b]) b.ref_id = .ok h ∧
      h.origin = jsUpperTrim o ∧ h.destination = jsUpperTrim dst ∧
      h.pieces = p ∧ h.weight_kg = w ∧ h.status = .BOOKED ∧
      h.timeline.length = 1 := by
  unfold createBooking at hok
  split at hok
  · exact absurd hok (by simp)
  · simp only [Except.ok.injEq] at hok
    subst hok
    have hvalid : isValidObjectId
        (generateRefId (store.map Booking.ref_id) (mkDateStr y m d)) = false :=
      isValidObjectId_generateRefId (store.map Booking.ref_id) y m d
    have hfix : jsUpperTrim (generateRefId (store.map Booking.ref_id) (mkDateStr y m d))
        = generateRefId (store.map Booking.ref_id) (mkDateStr y m d) :=
      jsUpperTrim_fixed (generateRefId (store.map Booking.ref_id) (mkDateStr y m d))
        (fun c hc => generateRefId_chars (store.map Booking.ref_id) y m d c hc)
    have hhist := getBookingHistory_append_fresh store
      { oid := oid, ref_id := generateRefId (store.map Booking.ref_id) (mkDateStr y m d),
        origin := jsUpperTrim o, destination := jsUpperTrim dst, pieces := p,
        weight_kg := w, status := .BOOKED, flightIds := fids,
        timeline := [{ event := .BOOKED, timestamp := t, flightId := none }] }
      hvalid hfix hfresh
    exact ⟨_, hhist, rfl, rfl, rfl, rfl, rfl, rfl⟩

/-- Witness for C8 (amended) at a concrete creation into an empty store. -/
theorem c8_create_history_amended_witness :
    ∃ h, getBookingHistory
        ([] ++
          [{ oid := "OID1".data, ref_id := "BOOK-20261011-000001".data,
             origin := "DEL".data, destination := "BLR".data, pieces := 3,
             weight_kg := 10, status := .BOOKED, flightIds := [],
             timeline := [{ event := .BOOKED, timestamp := 1000, flightId := none }] }])
        (Booking.ref_id
          { oid := "OID1".data, ref_id := "BOOK-20261011-000001".data,
            origin := "DEL".data, destination := "BLR".data, pieces := 3,
            weight_kg := 10, status := .BOOKED, flightIds := [],
            timeline := [{ event := .BOOKED, timestamp := 1000, flightId := none }] })
        = .ok h ∧
      h.origin = jsUpperTrim " del ".data ∧ h.destination = jsUpperTrim "blr".data ∧
      h.pieces = 3 ∧ h.weight_kg = 10 ∧ h.status = .BOOKED ∧
      h.timeline.length = 1 :=
  c8_create_history_amended [] [] "OID1".data " del ".data "blr".data 3 10 [] 2026 10 11
    1000 _ rfl (by simp)

/-- C10: booking resolution by identifier.  When the identifier is not a
valid ObjectId the lookup is exactly the `ref_id` lookup on the uppercased,
trimmed identifier, so identifiers differing only in letter case or
surrounding whitespace resolve to the same booking; when the identifier is a
valid ObjectId and the `_id` lookup matches, that match takes precedence. -/
theorem c10_identifier_normalization :
    (∀ (store : List Booking) (ident : JStr), isValidObjectId ident = false →
      findBookingByIdentifier store ident
        = store.find? (fun x => x.ref_id = jsUpperTrim ident)) ∧
    (∀ (store : List Booking) (i1 i2 : JStr),
      isValidObjectId i1 = false → isValidObjectId i2 = false →
      jsUpperTrim i1 = jsUpperTrim i2 →
      findBookingByIdentifier store i1 = findBookingByIdentifier store i2) ∧
    (∀ (store : List Booking) (ident : JStr) (b : Booking),
      isValidObjectId ident = true →
      store.find? (fun x => x.oid = ident) = some b →
      findBookingByIdentifier store ident = some b) := by
  refine ⟨?_, ?_, ?_⟩
  · intro store ident hvalid
    simp [findBookingByIdentifier, hvalid]
  · intro store i1 i2 h1 h2 hfix
    simp [findBookingByIdentifier, h1, h2, hfix]
  · intro store ident b hvalid hfound
    simp [findBookingByIdentifier, hvalid, hfound]

/-- Witness for C10: a lowercase, whitespace-padded identifier resolves like
the canonical one, and a valid-ObjectId identifier is served by the `_id`
lookup. -/
theorem c10_identifier_normalization_witness :
    (findBookingByIdentifier
        [{ oid := "aaaaaaaaaaaaaaaaaaaaaaaa".data,
           ref_id := "BOOK-20261011-000001".data,
           origin := "DEL".data, destination := "BLR".data, pieces := 3,
           weight_kg := 10, status := .BOOKED, flightIds := [], timeline := [] }]
        " book-20261011-000001 ".data
      = findBookingByIdentifier
        [{ oid := "aaaaaaaaaaaaaaaaaaaaaaaa".data,
           ref_id := "BOOK-20261011-000001".data,
           origin := "DEL".data, destination := "BLR".data, pieces := 3,
           weight_kg := 10, status := .BOOKED, flightIds := [], timeline := [] }]
        "BOOK-20261011-000001".data) ∧
    (findBookingByIdentifier
        [{ oid := "aaaaaaaaaaaaaaaaaaaaaaaa".data,
           ref_id := "BOOK-20261011-000001".data,
           origin := "DEL".data, destination := "BLR".data, pieces := 3,
           weight_kg := 10, status := .BOOKED, flightIds := [], timeline := [] }]
        "aaaaaaaaaaaaaaaaaaaaaaaa".data
      = some
        { oid := "aaaaaaaaaaaaaaaaaaaaaaaa".data,
          ref_id := "BOOK-20261011-000001".data,
          origin := "DEL".data, destination := "BLR".data, pieces := 3,
          weight_kg := 10, status := .BOOKED, flightIds := [], timeline := [] }) := by
  constructor
  · exact c10_identifier_normalization.2.1 _ " book-20261011-000001 ".data
      "BOOK-20261011-000001".data (by decide) (by decide) (by decide)
  · exact c10_identifier_normalization.2.2 _ "aaaaaaaaaaaaaaaaaaaaaaaa".data _
      (by decide) (by decide)
